import Mathlib

/-!
Shallow embedding of the two CLI programs of the repository
(`src/check_ami.py`, Program A, and `src/latest_ami.py`, Program B).

Modelling conventions:
* Each remote call (`describe_instances`, `describe_images`) is modelled by an
  explicit `Except String _` argument: `.ok` carries the API response, `.error`
  is the exception caught by the surrounding `try`/`except` block.
* A `print(...)` is modelled as the list of lines it emits (an embedded `\n`
  at the start of an f-string becomes a leading empty line).  Functions that
  both print and return a value return a pair `(logged lines, value)`.
* A `datetime` value is modelled as its UTC timestamp in seconds (`Int`); the
  ISO-8601 parsing `datetime.fromisoformat(s.replace('Z', '+00:00'))` is the
  collaborator step that produces it.  `timedelta.days` floors, hence
  `Int.fdiv _ 86400`.  `strftime` is modelled by an explicit formatting
  parameter `fmt : Int → String`.
* A Python `dict` built by insertion is an association list; `dict` membership
  and access are `List.lookup`.
-/

/-- One EC2 instance record, as consumed by `check_ami.py` (Program A).
`launchTime` holds the already-rendered launch time string, since the script
only ever formats it for display. -/
structure Inst where
  instanceId : String
  instanceType : String
  imageId : String
  launchTime : String
  state : String
deriving Repr, DecidableEq

/-- One image record of a `describe_images` response as consumed by
`get_ami_info` in Program A: `name` is `None` when the `Name` key is absent,
`creationDate` is the parsed `CreationDate` timestamp (seconds, UTC). -/
structure ImageRecord where
  imageId : String
  name : Option String
  creationDate : Int
deriving Repr, DecidableEq

/-- The per-image metadata value stored in the `ami_info` dict of Program A. -/
structure AmiMeta where
  name : String
  creation_date : Int
  creation_date_str : String
  age_days : Int
deriving Repr, DecidableEq

/-- `get_ec2_instances` of `check_ami.py`: flatten the reservations, keep the
instances whose state is not `"terminated"`; on failure log and return `[]`. -/
def get_ec2_instances (resp : Except String (List (List Inst))) :
    List String × List Inst :=
  match resp with
  | .ok reservations =>
      ([], reservations.flatten.filter (fun i => i.state != "terminated"))
  | .error e => (["Error fetching EC2 instances: " ++ e], [])

/-- `get_ami_info` of `check_ami.py`: short-circuit on an empty id list,
otherwise build the id-keyed metadata dict from the response; on failure log
and return what was accumulated (nothing, the fetch being a single call).
`now` is `datetime.now(timezone.utc)` and `fmt` is `strftime`. -/
def get_ami_info (now : Int) (fmt : Int → String) (ami_ids : List String)
    (resp : Except String (List ImageRecord)) :
    List String × List (String × AmiMeta) :=
  if ami_ids.isEmpty then ([], [])
  else
    match resp with
    | .ok images =>
        ([], images.map (fun img =>
          (img.imageId,
            { name := img.name.getD "Unknown"
              creation_date := img.creationDate
              creation_date_str := fmt img.creationDate
              age_days := (now - img.creationDate).fdiv 86400 })))
    | .error e => (["Error fetching AMI information: " ++ e], [])

/-- `check_ami_rotation` of `check_ami.py`: the ids of the metadata entries
whose `age_days` strictly exceeds `rotation_days` (the call site passes the
Python default, 90). -/
def check_ami_rotation (ami_info : List (String × AmiMeta))
    (rotation_days : Int) : List String :=
  (ami_info.filter (fun p => p.2.age_days > rotation_days)).map Prod.fst

/-- Python `f"{s:<w}"`: pad `s` on the right with spaces to width `w`. -/
def padRight (s : String) (w : Nat) : String :=
  s ++ String.mk (List.replicate (w - s.length) ' ')

/-- `"-" * n` / `"=" * n`. -/
def charRow (c : Char) (n : Nat) : String :=
  String.mk (List.replicate n c)

/-- One row of the EC2 instance table of Program A. -/
def instance_row (i : Inst) : String :=
  padRight i.instanceId 20 ++ " " ++ padRight i.instanceType 15 ++ " " ++
    padRight i.imageId 15 ++ " " ++ padRight i.launchTime 20

/-- One row of the AMI information table of Program A: metadata columns when
the id resolves in `ami_info`, literal `"Unknown"` placeholders otherwise. -/
def ami_row (ami_info : List (String × AmiMeta)) (ami_id : String) : String :=
  match ami_info.lookup ami_id with
  | some info =>
      let name := if info.name.length > 29 then info.name.take 29 else info.name
      padRight ami_id 15 ++ " " ++ padRight name 30 ++ " " ++
        padRight info.creation_date_str 20 ++ " " ++
        padRight (toString info.age_days) 10
  | none =>
      padRight ami_id 15 ++ " " ++ padRight "Unknown" 30 ++ " " ++
        padRight "Unknown" 20 ++ " " ++ padRight "Unknown" 10

/-- The closing rotation-compliance section of Program A's report.  In the
warning branch the direct dict accesses `ami_info[ami_id]` cannot fail, since
`check_ami_rotation` only returns keys of `ami_info`; the `none` arm is
unreachable. -/
def rotation_section (ami_info : List (String × AmiMeta)) : List String :=
  let old_amis := check_ami_rotation ami_info 90
  if old_amis.isEmpty then
    ["", "✅ All AMIs are within the 90-day rotation policy."]
  else
    ["", "⚠️  AMI ROTATION WARNING:",
      "The following AMIs are older than 90 days and should be rotated:"] ++
    old_amis.map (fun ami_id =>
      match ami_info.lookup ami_id with
      | some info =>
          "  - " ++ ami_id ++ ": " ++ info.name ++ " (" ++
            toString info.age_days ++ " days old)"
      | none => "")

/-- The deduplicated image-id list of Program A's `main`:
`list(set([instance['ImageId'] for instance in instances]))`. -/
def ami_ids_of (instances : List Inst) : List String :=
  (instances.map (fun i => i.imageId)).dedup

/-- `sorted(ami_ids)`: Python's sort of the id list, ascending. -/
def table_ids (ami_ids : List String) : List String :=
  List.insertionSort (fun a b : String => a ≤ b) ami_ids

/-- `main` of `check_ami.py` as the list of lines it prints, given the two
API responses. -/
def mainA_render (region : String) (instResp : Except String (List (List Inst)))
    (amiResp : Except String (List ImageRecord)) (now : Int)
    (fmt : Int → String) : List String :=
  let header := ["Checking EC2 instances in region: " ++ region,
                 charRow '=' 50]
  let fetched := get_ec2_instances instResp
  let instances := fetched.2
  if instances.isEmpty then
    header ++ fetched.1 ++ ["No EC2 instances found or error occurred."]
  else
    let ami_ids := ami_ids_of instances
    let fetchedAmi := get_ami_info now fmt ami_ids amiResp
    let ami_info := fetchedAmi.2
    header ++ fetched.1 ++ fetchedAmi.1 ++
    ["", "SUMMARY:",
      "Total EC2 instances: " ++ toString instances.length,
      "Unique AMIs in use: " ++ toString ami_ids.length,
      "", "EC2 INSTANCES:",
      charRow '-' 80,
      padRight "Instance ID" 20 ++ " " ++ padRight "Instance Type" 15 ++ " " ++
        padRight "AMI ID" 15 ++ " " ++ padRight "Launch Time" 20,
      charRow '-' 80] ++
    instances.map instance_row ++
    ["", "AMI INFORMATION:",
      charRow '-' 80,
      padRight "AMI ID" 15 ++ " " ++ padRight "AMI Name" 30 ++ " " ++
        padRight "Created" 20 ++ " " ++ padRight "Age (days)" 10,
      charRow '-' 80] ++
    (table_ids ami_ids).map (ami_row ami_info) ++
    rotation_section ami_info

/-- The `Ebs` sub-dict of a block-device mapping of `latest_ami.py`;
each field is `none` when the corresponding key is absent. -/
structure Ebs where
  volumeSize : Option Int
  volumeType : Option String
  encrypted : Option Bool
deriving Repr, DecidableEq

/-- One entry of `BlockDeviceMappings`: `ebs = none` models a mapping with no
`'Ebs'` key (for example an instance-store mapping). -/
structure BlockDeviceMapping where
  deviceName : String
  ebs : Option Ebs
deriving Repr, DecidableEq

/-- One image record of the filtered `describe_images` response consumed by
`latest_ami.py` (Program B).  `creationDate` is the parsed `CreationDate`
timestamp; `tags` models the `Tags` key, absent or empty both as `[]`. -/
structure Ami where
  imageId : String
  name : String
  description : Option String
  ownerId : String
  architecture : String
  rootDeviceType : String
  virtualizationType : String
  state : String
  creationDate : Int
  tags : List (String × String)
  blockDeviceMappings : List BlockDeviceMapping
deriving Repr, DecidableEq

/-- `max(response['Images'], key=lambda x: ...CreationDate...)` preceded by the
empty-response check: CPython's `max` starts from the first element and
replaces the running maximum only on a strictly greater key. -/
def select_latest (images : List Ami) : Option Ami :=
  match images with
  | [] => none
  | x :: xs =>
      some (xs.foldl
        (fun acc y => if acc.creationDate < y.creationDate then y else acc) x)

/-- `get_latest_ami` of `latest_ami.py`, given the filtered query response:
the latest matching image, or `none` on an empty match set; on failure log
and return `none`. -/
def get_latest_ami (resp : Except String (List Ami)) :
    List String × Option Ami :=
  match resp with
  | .ok images => ([], select_latest images)
  | .error e => (["Error fetching AMI information: " ++ e], none)

/-- `str(x)` for `dict.get('VolumeSize', 'N/A')` as used in the f-string. -/
def showSize (o : Option Int) : String :=
  match o with
  | some n => toString n
  | none => "N/A"

/-- The lines one block-device mapping contributes in `format_ami_info`:
nothing at all when the mapping has no `'Ebs'` key. -/
def bdm_lines (m : BlockDeviceMapping) : List String :=
  match m.ebs with
  | some ebs =>
      ["  " ++ m.deviceName ++ ": " ++ showSize ebs.volumeSize ++ "GB (" ++
        ebs.volumeType.getD "N/A" ++ ") " ++
        (if ebs.encrypted.getD false then "Encrypted" else "Not Encrypted")]
  | none => []

/-- `format_ami_info` of `latest_ami.py` as the list of lines it prints. -/
def format_ami_info (now : Int) (fmt : Int → String) (ami : Ami) :
    List String :=
  ["Latest AMI Found:",
    "==================",
    "AMI ID:          " ++ ami.imageId,
    "Name:            " ++ ami.name,
    "Description:     " ++ ami.description.getD "N/A",
    "Owner ID:        " ++ ami.ownerId,
    "Architecture:    " ++ ami.architecture,
    "Root Device:     " ++ ami.rootDeviceType,
    "Virtualization:  " ++ ami.virtualizationType,
    "State:           " ++ ami.state,
    "Created:         " ++ fmt ami.creationDate,
    "Age:             " ++ toString ((now - ami.creationDate).fdiv 86400) ++
      " days"] ++
  (if ami.tags.isEmpty then []
   else "Tags:" :: ami.tags.map (fun t => "  " ++ t.1 ++ ": " ++ t.2)) ++
  ["", "Block Device Mappings:"] ++
  (ami.blockDeviceMappings.map bdm_lines).flatten

/-- `main` of `latest_ami.py` as the list of lines it prints, given the
query response. -/
def mainB_render (now : Int) (fmt : Int → String)
    (region name_pattern owner : String) (resp : Except String (List Ami)) :
    List String :=
  let fetched := get_latest_ami resp
  ["Searching for latest AMI in region: " ++ region,
    "Name pattern: " ++ name_pattern,
    "Owner: " ++ owner,
    charRow '=' 50] ++
  fetched.1 ++
  (match fetched.2 with
   | some latest_ami =>
      format_ami_info now fmt latest_ami ++
      (let age_days := (now - latest_ami.creationDate).fdiv 86400
       if age_days > 90 then
        ["", "⚠️  WARNING: This AMI is " ++ toString age_days ++
           " days old (>90 days)",
         "Consider updating to a newer AMI for security compliance."]
       else
        ["", "✅ AMI is within 90-day rotation policy (" ++
           toString age_days ++ " days old)"])
   | none =>
      ["No AMI found matching the specified criteria.",
       "",
       "Possible reasons:",
       "- No AMIs with the specified name pattern exist",
       "- AMIs might be owned by a different account",
       "- AMIs might be in a different region",
       "- AMIs might be in 'pending' or 'failed' state"])

/-! ## Helper lemmas -/

theorem mem_check_ami_rotation_iff (ami_info : List (String × AmiMeta))
    (t : Int) (ami_id : String) :
    ami_id ∈ check_ami_rotation ami_info t ↔
      ∃ m, (ami_id, m) ∈ ami_info ∧ m.age_days > t := by
  simp only [check_ami_rotation, List.mem_map, List.mem_filter,
    decide_eq_true_eq]
  constructor
  · rintro ⟨⟨k, m⟩, ⟨hmem, hage⟩, rfl⟩
    exact ⟨m, hmem, hage⟩
  · rintro ⟨m, hmem, hage⟩
    exact ⟨(ami_id, m), ⟨hmem, hage⟩, rfl⟩

theorem lookup_none_not_mem {l : List (String × AmiMeta)} {k : String}
    (h : l.lookup k = none) : ∀ m, (k, m) ∉ l := by
  intro m hmem
  induction l with
  | nil => exact List.not_mem_nil _ hmem
  | cons p t ih =>
      rw [List.lookup] at h
      split at h
      · exact Option.noConfusion h
      · rename_i hk
        rcases List.mem_cons.mp hmem with heq | ht
        · rw [← heq] at hk
          simp at hk
        · exact ih h ht

/-! ## Claims -/

/-- C2: `check_ami_rotation` returns exactly the image identifiers whose
`age_days` strictly exceeds the threshold; an identifier absent from the
metadata map never appears in the result, and the function is total (pure, no
failure modes). -/
theorem check_ami_rotation_spec (ami_info : List (String × AmiMeta))
    (t : Int) (ami_id : String) :
    ami_id ∈ check_ami_rotation ami_info t ↔
      ∃ m, (ami_id, m) ∈ ami_info ∧ m.age_days > t :=
  mem_check_ami_rotation_iff ami_info t ami_id

/-- C4: the rotation check is antitone in the threshold — for `t1 ≤ t2` every
identifier expired at `t2` is expired at `t1` — and at threshold `0` every
image of positive age is expired. -/
theorem check_ami_rotation_monotone (ami_info : List (String × AmiMeta))
    (t1 t2 : Int) (h : t1 ≤ t2) :
    (∀ ami_id ∈ check_ami_rotation ami_info t2,
        ami_id ∈ check_ami_rotation ami_info t1) ∧
    (∀ ami_id m, (ami_id, m) ∈ ami_info → m.age_days > 0 →
        ami_id ∈ check_ami_rotation ami_info 0) := by
  constructor
  · intro ami_id hmem
    rcases (mem_check_ami_rotation_iff ami_info t2 ami_id).mp hmem with
      ⟨m, hm, hage⟩
    exact (mem_check_ami_rotation_iff ami_info t1 ami_id).mpr
      ⟨m, hm, lt_of_le_of_lt h hage⟩
  · intro ami_id m hm hage
    exact (mem_check_ami_rotation_iff ami_info 0 ami_id).mpr ⟨m, hm, hage⟩

/-- Witness for C4 at a concrete metadata map and thresholds `1 ≤ 3`. -/
theorem check_ami_rotation_monotone_witness :
    (∀ ami_id ∈ check_ami_rotation [("ami-1", AmiMeta.mk "n" 0 "c" 120)] 3,
        ami_id ∈ check_ami_rotation [("ami-1", AmiMeta.mk "n" 0 "c" 120)] 1) ∧
    (∀ ami_id m, (ami_id, m) ∈ [("ami-1", AmiMeta.mk "n" 0 "c" 120)] →
        m.age_days > 0 →
        ami_id ∈ check_ami_rotation [("ami-1", AmiMeta.mk "n" 0 "c" 120)] 0) :=
  check_ami_rotation_monotone [("ami-1", AmiMeta.mk "n" 0 "c" 120)] 1 3
    (by decide)

/-- C3: every remote-fetch failure collapses to a logged diagnostic plus a
safe fallback: `get_ec2_instances` returns `[]`, `get_ami_info` returns the
empty map (when a call was attempted at all, i.e. the id list is non-empty),
and `get_latest_ami` returns `none`. -/
theorem fetch_failure_fallback (e : String) (now : Int) (fmt : Int → String)
    (ami_ids : List String) (h : ami_ids ≠ []) :
    get_ec2_instances (.error e) =
      (["Error fetching EC2 instances: " ++ e], []) ∧
    get_ami_info now fmt ami_ids (.error e) =
      (["Error fetching AMI information: " ++ e], []) ∧
    get_latest_ami (.error e) =
      (["Error fetching AMI information: " ++ e], none) := by
  have hne : ami_ids.isEmpty = false := by
    simpa [List.isEmpty_iff] using h
  exact ⟨rfl, by simp [get_ami_info, hne], rfl⟩

/-- Witness for C3 at a concrete error and a one-element id list. -/
theorem fetch_failure_fallback_witness :
    get_ec2_instances (.error "boom") =
      (["Error fetching EC2 instances: boom"], []) ∧
    get_ami_info 0 (fun _ => "") ["ami-1"] (.error "boom") =
      (["Error fetching AMI information: boom"], []) ∧
    get_latest_ami (.error "boom") =
      (["Error fetching AMI information: boom"], none) :=
  fetch_failure_fallback "boom" 0 (fun _ => "") ["ami-1"] (by decide)

/-- C10: when the instance fetch yields no instances (empty success or
failure), Program A prints only its header, any fetch diagnostic, and the
single line `"No EC2 instances found or error occurred."` — no summary, no
tables, no rotation section. -/
theorem mainA_empty_instances (region : String)
    (instResp : Except String (List (List Inst)))
    (amiResp : Except String (List ImageRecord)) (now : Int)
    (fmt : Int → String) (h : (get_ec2_instances instResp).2 = []) :
    mainA_render region instResp amiResp now fmt =
      ["Checking EC2 instances in region: " ++ region, charRow '=' 50] ++
      (get_ec2_instances instResp).1 ++
      ["No EC2 instances found or error occurred."] := by
  unfold mainA_render
  simp [h]

/-- Witness for C10 at an empty (successful) instance response. -/
theorem mainA_empty_instances_witness :
    mainA_render "eu-west-1" (.ok []) (.ok []) 0 (fun _ => "") =
      ["Checking EC2 instances in region: eu-west-1", charRow '=' 50] ++
      ([] : List String) ++
      ["No EC2 instances found or error occurred."] :=
  mainA_empty_instances "eu-west-1" (.ok []) (.ok []) 0 (fun _ => "") rfl

/-- C5 counterexample: on a no-match lookup the program prints FOUR
possible-reasons bullet lines, not three as claimed — counting the lines that
start with the bullet marker in the concrete no-match run. -/
theorem mainB_no_match_counterexample :
    ((mainB_render 0 (fun _ => "") "r" "p" "o" (Except.ok [])).filter
        (fun l => l.data.take 2 == ['-', ' '])).length = 4 ∧
    ((mainB_render 0 (fun _ => "") "r" "p" "o" (Except.ok [])).filter
        (fun l => l.data.take 2 == ['-', ' '])).length ≠ 3 := by
  have h4 : ((mainB_render 0 (fun _ => "") "r" "p" "o" (Except.ok [])).filter
      (fun l => l.data.take 2 == ['-', ' '])).length = 4 := rfl
  exact ⟨h4, by rw [h4]; decide⟩

/-- C5 (amended: four possible-reasons lines, not three): whenever the
latest-image lookup yields `none`, Program B's output is its header, any
fetch diagnostic, the "No AMI found" message, the "Possible reasons:" header
and exactly the four listed possible-reasons lines — no detail block. -/
theorem mainB_no_match_render (now : Int) (fmt : Int → String)
    (region name_pattern owner : String) (resp : Except String (List Ami))
    (h : (get_latest_ami resp).2 = none) :
    mainB_render now fmt region name_pattern owner resp =
      ["Searching for latest AMI in region: " ++ region,
       "Name pattern: " ++ name_pattern,
       "Owner: " ++ owner,
       charRow '=' 50] ++
      (get_latest_ami resp).1 ++
      ["No AMI found matching the specified criteria.",
       "",
       "Possible reasons:",
       "- No AMIs with the specified name pattern exist",
       "- AMIs might be owned by a different account",
       "- AMIs might be in a different region",
       "- AMIs might be in 'pending' or 'failed' state"] := by
  unfold mainB_render
  simp [h]

/-- Witness for C5 at a concrete empty match set. -/
theorem mainB_no_match_render_witness :
    mainB_render 0 (fun _ => "") "r" "p" "o" (Except.ok []) =
      ["Searching for latest AMI in region: r",
       "Name pattern: p",
       "Owner: o",
       charRow '=' 50] ++
      ([] : List String) ++
      ["No AMI found matching the specified criteria.",
       "",
       "Possible reasons:",
       "- No AMIs with the specified name pattern exist",
       "- AMIs might be owned by a different account",
       "- AMIs might be in a different region",
       "- AMIs might be in 'pending' or 'failed' state"] :=
  mainB_no_match_render 0 (fun _ => "") "r" "p" "o" (Except.ok []) rfl

/-- C7: an image id present in the instance table but not in the metadata map
renders with the literal `"Unknown"` placeholder in every metadata column, is
never in the rotation result at any threshold, and does not prevent the
compliance-confirmation line. -/
theorem unknown_ami_neutral (ami_info : List (String × AmiMeta))
    (ami_id : String) (h : ami_info.lookup ami_id = none) :
    ami_row ami_info ami_id =
      padRight ami_id 15 ++ " " ++ padRight "Unknown" 30 ++ " " ++
        padRight "Unknown" 20 ++ " " ++ padRight "Unknown" 10 ∧
    (∀ t, ami_id ∉ check_ami_rotation ami_info t) ∧
    (check_ami_rotation ami_info 90 = [] →
      "✅ All AMIs are within the 90-day rotation policy."
        ∈ rotation_section ami_info) := by
  refine ⟨by simp [ami_row, h], ?_, ?_⟩
  · intro t hmem
    rcases (mem_check_ami_rotation_iff ami_info t ami_id).mp hmem with
      ⟨m, hm, _⟩
    exact lookup_none_not_mem h m hm
  · intro h90
    simp [rotation_section, h90]

/-- Witness for C7 at a concrete map missing the id `"ami-1"`. -/
theorem unknown_ami_neutral_witness :
    ami_row [("ami-2", AmiMeta.mk "img" 0 "c" 10)] "ami-1" =
      padRight "ami-1" 15 ++ " " ++ padRight "Unknown" 30 ++ " " ++
        padRight "Unknown" 20 ++ " " ++ padRight "Unknown" 10 ∧
    (∀ t, "ami-1" ∉ check_ami_rotation [("ami-2", AmiMeta.mk "img" 0 "c" 10)] t) ∧
    (check_ami_rotation [("ami-2", AmiMeta.mk "img" 0 "c" 10)] 90 = [] →
      "✅ All AMIs are within the 90-day rotation policy."
        ∈ rotation_section [("ami-2", AmiMeta.mk "img" 0 "c" 10)]) :=
  unknown_ami_neutral [("ami-2", AmiMeta.mk "img" 0 "c" 10)] "ami-1" rfl

/-- C9: the retained instances are exactly the non-terminated ones of the
response; the deduplicated id list counted by the summary has the cardinality
of the set of distinct image ids of those instances (and is duplicate-free,
so each unique id is queried once); and the rendered summary carries exactly
that count. -/
theorem instances_and_unique_count (reservations : List (List Inst))
    (region : String) (amiResp : Except String (List ImageRecord))
    (now : Int) (fmt : Int → String) :
    (∀ i, i ∈ (get_ec2_instances (Except.ok reservations)).2 ↔
        i ∈ reservations.flatten ∧ i.state ≠ "terminated") ∧
    ((ami_ids_of (get_ec2_instances (Except.ok reservations)).2).length =
        ((get_ec2_instances (Except.ok reservations)).2.map
          (fun i => i.imageId)).toFinset.card) ∧
    (ami_ids_of (get_ec2_instances (Except.ok reservations)).2).Nodup ∧
    ((get_ec2_instances (Except.ok reservations)).2 ≠ [] →
      ("Unique AMIs in use: " ++
          toString (ami_ids_of (get_ec2_instances (Except.ok reservations)).2).length)
        ∈ mainA_render region (Except.ok reservations) amiResp now fmt) := by
  refine ⟨?_, ?_, ?_, ?_⟩
  · intro i
    simp [get_ec2_instances, List.mem_filter]
    tauto
  · simp [ami_ids_of, List.card_toFinset]
  · exact List.nodup_dedup _
  · intro hne
    have hempty : (get_ec2_instances (Except.ok reservations)).2.isEmpty = false := by
      simpa [List.isEmpty_iff] using hne
    unfold mainA_render
    simp [hempty]

/-- C8: the id sequence the AMI table is rendered from (Python's `sorted` of
the duplicate-free id list) is strictly ascending, whatever the input order;
two input orders of the same ids give the same table sequence. -/
theorem ami_table_sorted (ami_ids : List String) (h : ami_ids.Nodup) :
    List.Sorted (fun a b : String => a < b) (table_ids ami_ids) ∧
    (∀ other : List String, List.Perm ami_ids other →
      table_ids ami_ids = table_ids other) := by
  have hs : List.Sorted (fun a b : String => a ≤ b) (table_ids ami_ids) :=
    List.sorted_insertionSort _ ami_ids
  constructor
  · have hnd : (table_ids ami_ids).Nodup :=
      ((List.perm_insertionSort (fun a b : String => a ≤ b) ami_ids).nodup_iff).mpr h
    exact List.Sorted.lt_of_le hs hnd
  · intro other hperm
    have hs2 : List.Sorted (fun a b : String => a ≤ b) (table_ids other) :=
      List.sorted_insertionSort _ other
    exact List.eq_of_perm_of_sorted
      (((List.perm_insertionSort _ ami_ids).trans hperm).trans
        (List.perm_insertionSort _ other).symm) hs hs2

/-- Witness for C8 at a concrete out-of-order duplicate-free id list. -/
theorem ami_table_sorted_witness :
    List.Sorted (fun a b : String => a < b) (table_ids ["ami-b", "ami-a"]) ∧
    (∀ other : List String, List.Perm ["ami-b", "ami-a"] other →
      table_ids ["ami-b", "ami-a"] = table_ids other) :=
  ami_table_sorted ["ami-b", "ami-a"] (by decide)

/-- The running maximum kept by CPython's `max`: starting from `acc`, the
fold result is `acc` itself when nothing beats it strictly, and otherwise is
an element of the list that strictly beats `acc`, strictly beats everything
before it, and is not strictly beaten by anything after it. -/
theorem foldl_latest_spec (xs : List Ami) :
    ∀ acc : Ami,
      (xs.foldl (fun a y => if a.creationDate < y.creationDate then y else a)
          acc = acc ∧
        ∀ b ∈ xs, b.creationDate ≤ acc.creationDate) ∨
      (∃ pre post,
        xs = pre ++
          (xs.foldl (fun a y => if a.creationDate < y.creationDate then y
            else a) acc) :: post ∧
        acc.creationDate <
          (xs.foldl (fun a y => if a.creationDate < y.creationDate then y
            else a) acc).creationDate ∧
        (∀ b ∈ pre, b.creationDate <
          (xs.foldl (fun a y => if a.creationDate < y.creationDate then y
            else a) acc).creationDate) ∧
        (∀ b ∈ post, b.creationDate ≤
          (xs.foldl (fun a y => if a.creationDate < y.creationDate then y
            else a) acc).creationDate)) := by
  induction xs with
  | nil => intro acc; left; exact ⟨rfl, by simp⟩
  | cons y ys ih =>
      intro acc
      simp only [List.foldl_cons]
      by_cases hy : acc.creationDate < y.creationDate
      · rw [if_pos hy]
        rcases ih y with ⟨heq, hall⟩ | ⟨pre, post, hsplit, hlt, hpre, hpost⟩
        · right
          refine ⟨[], ys, ?_, ?_, by simp, ?_⟩
          · rw [heq]; rfl
          · rw [heq]; exact hy
          · rw [heq]; exact hall
        · right
          refine ⟨y :: pre, post, ?_, lt_trans hy hlt, ?_, hpost⟩
          · rw [List.cons_append, ← hsplit]
          · intro b hb
            rcases List.mem_cons.mp hb with rfl | hb
            · exact hlt
            · exact hpre b hb
      · rw [if_neg hy]
        rcases ih acc with ⟨heq, hall⟩ | ⟨pre, post, hsplit, hlt, hpre, hpost⟩
        · left
          refine ⟨heq, ?_⟩
          intro b hb
          rcases List.mem_cons.mp hb with rfl | hb
          · exact le_of_not_lt hy
          · exact hall b hb
        · right
          refine ⟨y :: pre, post, ?_, hlt, ?_, hpost⟩
          · rw [List.cons_append, ← hsplit]
          · intro b hb
            rcases List.mem_cons.mp hb with rfl | hb
            · exact lt_of_le_of_lt (le_of_not_lt hy) hlt
            · exact hpre b hb

/-- C1: on a successful filtered query, `get_latest_ami` yields `none`
exactly when the match set is empty, and otherwise selects the first image
(in provider-returned order) whose creation timestamp is maximal: everything
is at most the selected timestamp, and everything earlier in the list is
strictly below it (the strict greater-than fold makes ties first-seen-wins;
in particular, of two images created at `T1 < T2` the one at `T2` wins). -/
theorem get_latest_ami_selects_max (images : List Ami) :
    ((get_latest_ami (Except.ok images)).2 = none ↔ images = []) ∧
    (images ≠ [] →
      ∃ a pre post,
        (get_latest_ami (Except.ok images)).2 = some a ∧
        images = pre ++ a :: post ∧
        (∀ b ∈ images, b.creationDate ≤ a.creationDate) ∧
        (∀ b ∈ pre, b.creationDate < a.creationDate)) := by
  constructor
  · cases images with
    | nil => simp [get_latest_ami, select_latest]
    | cons x xs => simp [get_latest_ami, select_latest]
  · intro hne
    match images with
    | x :: xs =>
      rcases foldl_latest_spec xs x with ⟨heq, hall⟩ |
        ⟨pre, post, hsplit, hlt, hpre, hpost⟩
      · refine ⟨x, [], xs, ?_, rfl, ?_, by simp⟩
        · show select_latest (x :: xs) = some x
          rw [select_latest, heq]
        · intro b hb
          rcases List.mem_cons.mp hb with rfl | hb
          · exact le_refl _
          · exact hall b hb
      · refine ⟨_, x :: pre, post, rfl, ?_, ?_, ?_⟩
        · rw [List.cons_append, ← hsplit]
        · intro b hb
          rcases List.mem_cons.mp hb with rfl | hb
          · exact le_of_lt hlt
          · rw [hsplit] at hb
            rcases List.mem_append.mp hb with hb | hb
            · exact le_of_lt (hpre b hb)
            · rcases List.mem_cons.mp hb with rfl | hb
              · exact le_refl _
              · exact hpost b hb
        · intro b hb
          rcases List.mem_cons.mp hb with rfl | hb
          · exact hlt
          · exact hpre b hb

/-- Witness for C1 at two concrete images created at `1 < 2`. -/
theorem get_latest_ami_selects_max_witness :
    ∃ a pre post,
      (get_latest_ami (Except.ok
        [Ami.mk "ami-1" "n1" none "o" "x86_64" "ebs" "hvm" "available" 1 [] [],
         Ami.mk "ami-2" "n2" none "o" "x86_64" "ebs" "hvm" "available" 2 [] []])).2
        = some a ∧
      [Ami.mk "ami-1" "n1" none "o" "x86_64" "ebs" "hvm" "available" 1 [] [],
       Ami.mk "ami-2" "n2" none "o" "x86_64" "ebs" "hvm" "available" 2 [] []]
        = pre ++ a :: post ∧
      (∀ b ∈ [Ami.mk "ami-1" "n1" none "o" "x86_64" "ebs" "hvm" "available" 1 [] [],
         Ami.mk "ami-2" "n2" none "o" "x86_64" "ebs" "hvm" "available" 2 [] []],
        b.creationDate ≤ a.creationDate) ∧
      (∀ b ∈ pre, b.creationDate < a.creationDate) :=
  (get_latest_ami_selects_max
    [Ami.mk "ami-1" "n1" none "o" "x86_64" "ebs" "hvm" "available" 1 [] [],
     Ami.mk "ami-2" "n2" none "o" "x86_64" "ebs" "hvm" "available" 2 [] []]).2
    (by decide)

/-- C6 counterexample: an image whose single block-device mapping has no
`Ebs` sub-dict gets NO line in the block-device listing — the rendered output
ends at the section header, so the entry is not shown with its device name,
contradicting "renders each entry". -/
theorem format_ami_info_counterexample :
    (Ami.mk "ami-1" "n" none "o" "x86_64" "ebs" "hvm" "available" 0 []
        [BlockDeviceMapping.mk "/dev/sdb" none]).blockDeviceMappings.length
      = 1 ∧
    ((Ami.mk "ami-1" "n" none "o" "x86_64" "ebs" "hvm" "available" 0 []
        [BlockDeviceMapping.mk "/dev/sdb" none]).blockDeviceMappings.map
          bdm_lines).flatten = [] ∧
    (format_ami_info 0 (fun _ => "")
        (Ami.mk "ami-1" "n" none "o" "x86_64" "ebs" "hvm" "available" 0 []
          [BlockDeviceMapping.mk "/dev/sdb" none])).getLast?
      = some "Block Device Mappings:" :=
  ⟨rfl, rfl, rfl⟩

/-- C6 (amended: only the entries that carry an `Ebs` sub-dict are rendered;
the others are skipped entirely): every mapping with an `Ebs` sub-dict
contributes its line — device name, volume size or `"N/A"`, volume type or
`"N/A"`, and `"Encrypted"`/`"Not Encrypted"` with the flag defaulting to
false — and the listing has exactly one line per `Ebs`-carrying mapping. -/
theorem format_ami_info_bdm (now : Int) (fmt : Int → String) (ami : Ami)
    (m : BlockDeviceMapping) (e : Ebs) (hm : m ∈ ami.blockDeviceMappings)
    (he : m.ebs = some e) :
    ("  " ++ m.deviceName ++ ": " ++ showSize e.volumeSize ++ "GB (" ++
        e.volumeType.getD "N/A" ++ ") " ++
        (if e.encrypted.getD false then "Encrypted" else "Not Encrypted"))
      ∈ format_ami_info now fmt ami ∧
    (ami.blockDeviceMappings.map bdm_lines).flatten.length =
      (ami.blockDeviceMappings.filter (fun m2 => m2.ebs.isSome)).length := by
  constructor
  · have hline : ("  " ++ m.deviceName ++ ": " ++ showSize e.volumeSize ++
        "GB (" ++ e.volumeType.getD "N/A" ++ ") " ++
        (if e.encrypted.getD false then "Encrypted" else "Not Encrypted"))
        ∈ bdm_lines m := by
      simp [bdm_lines, he]
    have hflat : ("  " ++ m.deviceName ++ ": " ++ showSize e.volumeSize ++
        "GB (" ++ e.volumeType.getD "N/A" ++ ") " ++
        (if e.encrypted.getD false then "Encrypted" else "Not Encrypted"))
        ∈ (ami.blockDeviceMappings.map bdm_lines).flatten :=
      List.mem_flatten.mpr ⟨bdm_lines m, List.mem_map_of_mem _ hm, hline⟩
    rw [format_ami_info]
    simp only [List.mem_append]
    tauto
  · have hlen : ∀ l : List BlockDeviceMapping,
        (l.map bdm_lines).flatten.length =
          (l.filter (fun m2 => m2.ebs.isSome)).length := by
      intro l
      induction l with
      | nil => rfl
      | cons c t ih =>
          cases hc : c.ebs with
          | none => simp [bdm_lines, hc, ih, List.filter_cons]
          | some eb => simp [bdm_lines, hc, ih, List.filter_cons]
    exact hlen _

/-- Witness for C6 at a concrete image with one `Ebs`-carrying mapping. -/
theorem format_ami_info_bdm_witness :
    ("  " ++ "/dev/xvda" ++ ": " ++ showSize (some 8) ++ "GB (" ++
        Option.getD (some "gp3") "N/A" ++ ") " ++
        (if Option.getD (some true) false then "Encrypted"
         else "Not Encrypted"))
      ∈ format_ami_info 0 (fun _ => "")
          (Ami.mk "ami-1" "n" none "o" "x86_64" "ebs" "hvm" "available" 0 []
            [BlockDeviceMapping.mk "/dev/xvda"
              (some (Ebs.mk (some 8) (some "gp3") (some true)))]) ∧
    ((Ami.mk "ami-1" "n" none "o" "x86_64" "ebs" "hvm" "available" 0 []
        [BlockDeviceMapping.mk "/dev/xvda"
          (some (Ebs.mk (some 8) (some "gp3") (some true)))]).blockDeviceMappings.map
            bdm_lines).flatten.length =
      ((Ami.mk "ami-1" "n" none "o" "x86_64" "ebs" "hvm" "available" 0 []
        [BlockDeviceMapping.mk "/dev/xvda"
          (some (Ebs.mk (some 8) (some "gp3") (some true)))]).blockDeviceMappings.filter
            (fun m2 => m2.ebs.isSome)).length :=
  format_ami_info_bdm 0 (fun _ => "")
    (Ami.mk "ami-1" "n" none "o" "x86_64" "ebs" "hvm" "available" 0 []
      [BlockDeviceMapping.mk "/dev/xvda"
        (some (Ebs.mk (some 8) (some "gp3") (some true)))])
    (BlockDeviceMapping.mk "/dev/xvda"
      (some (Ebs.mk (some 8) (some "gp3") (some true))))
    (Ebs.mk (some 8) (some "gp3") (some true))
    (by simp) rfl

/-- Witness for C9: with one concrete running instance, the rendered report
carries the unique-AMI count line. -/
theorem instances_and_unique_count_witness :
    ("Unique AMIs in use: " ++
        toString (ami_ids_of (get_ec2_instances
          (Except.ok [[Inst.mk "i-1" "t3.micro" "ami-1" "lt" "running"]])).2).length)
      ∈ mainA_render "r"
          (Except.ok [[Inst.mk "i-1" "t3.micro" "ami-1" "lt" "running"]])
          (Except.ok []) 0 (fun _ => "") :=
  (instances_and_unique_count
    [[Inst.mk "i-1" "t3.micro" "ami-1" "lt" "running"]]
    "r" (Except.ok []) 0 (fun _ => "")).2.2.2 (by decide)
